import Mathlib

/-!
Verification of the Tool Dispatch & Orchestration Pipeline of the
`test_mcp_orchestrator` repository.

The definitions below are a shallow embedding of the Python source:

* `parseSteps` embeds the ticket-parsing loop of
  `mcp_client_caller.execute_jira` (lines 106-132);
* `extract_click_target`, `extract_verification_target`, `classify` and
  `execStep` / `execFrom` embed `mcp_client_caller.execute_jira_instructions`
  together with its helper functions;
* `collectActions` embeds the action-list assembly of
  `mcp_client_caller.execute_jira` (lines 205-287);
* `generate_playwright_script_body` and `generate_playwright_script_fs`
  embed `browser_navigator_server.generate_playwright_script`;
* `execute_full_stack_test_suite` and `run_smoke_test_suite` embed the
  identically named tools of `unified_test_orchestrator.py`.

External collaborators (browser, selector-inference LLM, clock) are passed
in explicitly: tool calls that may raise are modelled with `Except`, the
generation date is an explicit argument, and the output directory of the
script synthesizer is a map from file names to contents.
-/

namespace McpOrchestrator

/-- `charsContains pat cs` holds when `pat` occurs as a contiguous
sublist of `cs`. -/
def charsContains (pat : List Char) : List Char → Bool
  | [] => pat.isEmpty
  | c :: rest => pat.isPrefixOf (c :: rest) || charsContains pat rest

/-- Python's `pat in s` substring test. -/
def strContains (s pat : String) : Bool :=
  charsContains pat.data s.data

/-!
The embedding works on `String.data` with structurally recursive helpers
(the position-based loops of the core `String` functions do not reduce
inside the kernel). Each helper mirrors the corresponding Python string
method.
-/

/-- Python's `str.lower()` (ASCII as used by the instruction texts). -/
def lowerStr (s : String) : String :=
  String.mk (s.data.map Char.toLower)

/-- Python's `str.strip()` with default (whitespace) argument. -/
def trimStr (s : String) : String :=
  String.mk (((s.data.dropWhile Char.isWhitespace).reverse.dropWhile
    Char.isWhitespace).reverse)

/-- Python's `str.startswith`. -/
def startsWithStr (s pat : String) : Bool :=
  pat.data.isPrefixOf s.data

/-- Python's `str.endswith`. -/
def endsWithStr (s pat : String) : Bool :=
  pat.data.reverse.isPrefixOf s.data.reverse

/-- Python's slicing `s[n:]` (by code point). -/
def dropStr (s : String) (n : Nat) : String :=
  String.mk (s.data.drop n)

/-- Python's `str.rstrip(chars)` restricted to a character predicate. -/
def dropRightWhileStr (s : String) (p : Char → Bool) : String :=
  String.mk ((s.data.reverse.dropWhile p).reverse)

/-- Leftmost, non-overlapping split on a (non-empty) separator; `fuel`
bounds the recursion by the length of the scanned list. -/
def splitOnAux (sep : List Char) : Nat → List Char → List Char →
    List (List Char)
  | _, [], acc => [acc.reverse]
  | 0, cs, acc => [acc.reverse ++ cs]
  | fuel + 1, c :: cs, acc =>
    if sep.isPrefixOf (c :: cs) then
      acc.reverse :: splitOnAux sep fuel (cs.drop (sep.length - 1)) []
    else
      splitOnAux sep fuel cs (c :: acc)

/-- Python's `str.split(sep)` for a non-empty separator. -/
def splitOnStr (s sep : String) : List String :=
  (splitOnAux sep.data s.data.length s.data []).map String.mk

/-- Leftmost, non-overlapping replacement of every occurrence of a
(non-empty) pattern. -/
def replaceAux (pat repl : List Char) : Nat → List Char → List Char
  | _, [] => []
  | 0, cs => cs
  | fuel + 1, c :: cs =>
    if pat.isPrefixOf (c :: cs) then
      repl ++ replaceAux pat repl fuel (cs.drop (pat.length - 1))
    else c :: replaceAux pat repl fuel cs

/-- Python's `str.replace(pat, repl)` for a non-empty pattern. -/
def replaceStr (s pat repl : String) : String :=
  String.mk (replaceAux pat.data repl.data s.data.length s.data)

/-- Splitting on single whitespace characters, keeping empty parts. -/
def splitWsAux : List Char → List Char → List (List Char)
  | [], acc => [acc.reverse]
  | c :: cs, acc =>
    if c.isWhitespace then acc.reverse :: splitWsAux cs []
    else splitWsAux cs (c :: acc)

/-- Python's `str.split()` : split on whitespace runs, dropping empties. -/
def pySplit (s : String) : List String :=
  ((splitWsAux s.data []).filter (fun w => !w.isEmpty)).map String.mk

/-! ## Ticket parser (`execute_jira`, lines 106-132) -/

/-- One iteration of the line-normalisation loop of `execute_jira`:
trim, drop empties, strip one leading `#` / `# ` marker, remove the
literal `\xa0` escape artifact, strip the brackets of a full-line
`Navigate to [URL]` pattern, and drop lines that became empty. -/
def cleanLine (raw : String) : Option String :=
  let line := trimStr raw
  if line = ("" : String) then none
  else
    let line :=
      if startsWithStr line ("# ") then trimStr (dropStr line 2)
      else if startsWithStr line ("#") then trimStr (dropStr line 1)
      else line
    let line := trimStr (replaceStr line ("\\xa0") (" "))
    let line :=
      if startsWithStr line ("Navigate to [") && endsWithStr line ("]") then
        dropRightWhileStr (replaceStr line ("Navigate to [") ("Navigate to "))
          (fun c => c = ']')
      else line
    if line = ("" : String) then none else some line

/-- The parsing of raw JIRA text into instruction steps
(`execute_jira`, lines 106-132): normalise escaped line breaks, split on
newlines and clean each line, keeping the non-empty results. -/
def parseSteps (jiraText : String) : List String :=
  (splitOnStr (replaceStr jiraText ("\\r\\n") ("\n")) ("\n")).filterMap cleanLine

/-! ## Instruction classifier (`execute_jira_instructions` helpers) -/

/-- `extract_click_target` of `mcp_client_caller.py`. -/
def extract_click_target (instruction : String) : Option String :=
  let instruction_lower := lowerStr instruction
  if strContains instruction_lower ("sign in") then some ("sign in button")
  else if strContains instruction_lower ("microsoft account") then
    some ("Microsoft Account button")
  else if strContains instruction_lower ("login") then some ("login button")
  else if strContains instruction_lower ("submit") then some ("submit button")
  else if strContains instruction_lower ("click on") then
    let parts := splitOnStr instruction_lower ("click on")
    match parts.get? 1 with
    | some p => some (trimStr p)
    | none => none
  else
    let button_words := [("button" : String), "link", "tab", "menu"]
    match (pySplit instruction).find? (fun word =>
        button_words.any (fun bw => strContains (lowerStr word) bw)) with
    | some word => some word
    | none => none

/-- `extract_verification_target` of `mcp_client_caller.py`. -/
def extract_verification_target (instruction : String) : String :=
  let instruction_lower := lowerStr instruction
  if strContains instruction_lower ("check for") then
    let parts := splitOnStr instruction_lower ("check for")
    match parts.get? 1 with
    | some p =>
      let target := trimStr p
      let target :=
        if strContains target (" and then") then
          match (splitOnStr target (" and then")).get? 0 with
          | some t => t
          | none => target
        else target
      let target :=
        if strContains target (" then") then
          match (splitOnStr target (" then")).get? 0 with
          | some t => t
          | none => target
        else target
      target
    | none => instruction
  else instruction

/-- The action intent a step is routed to by the `if/elif` chain of
`execute_jira_instructions`. -/
inductive ActionIntent where
  | screenshot
  | click
  | checkFor
  | navigate
  | unknown
  deriving DecidableEq, Repr

/-- Condition of the screenshot branch (line 335). -/
def screenshotCond (instruction : String) : Bool :=
  strContains (lowerStr instruction) ("take a screenshot")
    || strContains (lowerStr instruction) ("take the screenshot")

/-- Condition of the click branch (line 355). -/
def clickCond (instruction : String) : Bool :=
  strContains (lowerStr instruction) ("click")

/-- Condition of the verification branch (line 398). -/
def checkForCond (instruction : String) : Bool :=
  strContains (lowerStr instruction) ("check for")

/-- Condition of the navigation branch (line 420). -/
def navigateCond (instruction : String) : Bool :=
  strContains (lowerStr instruction) ("navigate to")

/-- The classifier realised by the ordered `if/elif` chain of
`execute_jira_instructions` (lines 335-436). -/
def classify (instruction : String) : ActionIntent :=
  if screenshotCond instruction then .screenshot
  else if clickCond instruction then .click
  else if checkForCond instruction then .checkFor
  else if navigateCond instruction then .navigate
  else .unknown

/-- An ordered predicate→intent rule table, evaluated first-match-wins. -/
def firstMatch (rules : List ((String → Bool) × ActionIntent))
    (dflt : ActionIntent) (s : String) : ActionIntent :=
  match rules with
  | [] => dflt
  | (c, a) :: rest => if c s then a else firstMatch rest dflt s

/-- The rule table of the classifier, in source order. -/
def classifierRules : List ((String → Bool) × ActionIntent) :=
  [(screenshotCond, .screenshot), (clickCond, .click),
   (checkForCond, .checkFor), (navigateCond, .navigate)]

/-! ## Execution engine (`execute_jira_instructions`, lines 309-447) -/

/-- A character the pattern `https?://[^\s\]]+` accepts after the scheme. -/
def urlChar (c : Char) : Bool :=
  !c.isWhitespace && c ≠ ']'

/-- `re.search(r"https?://[^\s\]]+", s)` on the character list: the leftmost
occurrence of an `http`/`https` scheme followed by at least one
non-whitespace, non-`]` character, taken maximally. -/
def findUrlAux : List Char → Option String
  | [] => none
  | c :: cs =>
    if ("https://").data.isPrefixOf (c :: cs) then
      let tok := ((c :: cs).drop 8).takeWhile urlChar
      if tok.isEmpty then findUrlAux cs
      else some (String.mk (("https://").data ++ tok))
    else if ("http://").data.isPrefixOf (c :: cs) then
      let tok := ((c :: cs).drop 7).takeWhile urlChar
      if tok.isEmpty then findUrlAux cs
      else some (String.mk (("http://").data ++ tok))
    else findUrlAux cs

/-- `re.search(r"https?://[^\s\]]+", instruction)` (line 422). -/
def findUrl (s : String) : Option String :=
  findUrlAux s.data

/-- The external collaborators reached through `mcp_client.call_tool`.
Each call either returns normally (`Except.ok`) or raises (`Except.error`);
`selectorFor` bundles the `extract_selector_by_page_content` call with
`extract_selector_from_result`, whose value is `none` when no selector
could be extracted from the tool result. -/
structure ToolEnv where
  screenshot : String → Except String Unit
  selectorFor : String → Except String (Option String)
  click : String → Except String Unit
  navigate : String → Except String Unit

/-- One entry of `results["steps"]`: the dict keys that occur in
`execute_jira_instructions` and in the script-generation loop of
`execute_jira`, absent keys modelled as `none`. -/
structure StepRecord where
  step : String
  status : String
  name : Option String := none
  instruction : Option String := none
  selector : Option String := none
  target : Option String := none
  url : Option String := none
  error : Option String := none
  verification_target : Option String := none
  value : Option String := none
  deriving DecidableEq, Repr

/-- The record appended by the `except` handler of the instruction loop
(lines 438-447). -/
def errRecord (instruction e : String) : StepRecord :=
  { step := "instruction_execution", status := "error",
    instruction := some instruction, error := some e }

/-- The record appended when no selector was found for a click target
(lines 388-396). -/
def clickFailRecord (instruction target : String) : StepRecord :=
  { step := "playwright_click", status := "failed",
    instruction := some instruction, target := some target,
    error := some ("Element not found") }

/-- One iteration of the instruction loop of `execute_jira_instructions`
(lines 333-447): the `if/elif` dispatch chain, with the surrounding
`try/except` turning a raising tool call into an `error` record. -/
def execStep (env : ToolEnv) (i : Nat) (instruction : String) :
    List StepRecord :=
  if screenshotCond instruction then
    let nm := ("step_") ++ toString (i + 1) ++ ("_screenshot")
    match env.screenshot nm with
    | .ok _ =>
      [{ step := "playwright_screenshot", status := "success",
         name := some nm, instruction := some instruction }]
    | .error e => [errRecord instruction e]
  else if clickCond instruction then
    match extract_click_target instruction with
    | none => []
    | some click_target =>
      if click_target = ("" : String) then []
      else
        match env.selectorFor (("find the ") ++ click_target) with
        | .error e => [errRecord instruction e]
        | .ok selector_text =>
          match selector_text with
          | some sel =>
            if !(sel == ("" : String)) && !(startsWithStr sel ("Error")) then
              match env.click sel with
              | .ok _ =>
                [{ step := "playwright_click", status := "success",
                   selector := some sel, instruction := some instruction,
                   target := some click_target }]
              | .error e => [errRecord instruction e]
            else [clickFailRecord instruction click_target]
          | none => [clickFailRecord instruction click_target]
  else if checkForCond instruction then
    let vt := extract_verification_target instruction
    let nm := ("verification_step_") ++ toString (i + 1)
    match env.screenshot nm with
    | .ok _ =>
      [{ step := "verification_screenshot", status := "success",
         name := some nm, instruction := some instruction,
         verification_target := some vt }]
    | .error e => [errRecord instruction e]
  else if navigateCond instruction then
    match findUrl instruction with
    | some nav_url =>
      match env.navigate nav_url with
      | .ok _ =>
        [{ step := "playwright_navigate", status := "success",
           url := some nav_url, instruction := some instruction }]
      | .error e => [errRecord instruction e]
    | none => []
  else []

/-- `stepDispatchFails env i instruction` holds exactly when the dispatch
performed for this instruction fails: the selector-inference call raises or
yields an error-shaped/absent selector, or the dispatched automation tool
call raises. -/
def stepDispatchFails (env : ToolEnv) (i : Nat) (instruction : String) :
    Bool :=
  if screenshotCond instruction then
    match env.screenshot (("step_") ++ toString (i + 1) ++ ("_screenshot")) with
    | .ok _ => false
    | .error _ => true
  else if clickCond instruction then
    match extract_click_target instruction with
    | none => false
    | some click_target =>
      if click_target = ("" : String) then false
      else
        match env.selectorFor (("find the ") ++ click_target) with
        | .error _ => true
        | .ok selector_text =>
          match selector_text with
          | some sel =>
            if !(sel == ("" : String)) && !(startsWithStr sel ("Error")) then
              match env.click sel with
              | .ok _ => false
              | .error _ => true
            else true
          | none => true
  else if checkForCond instruction then
    match env.screenshot (("verification_step_") ++ toString (i + 1)) with
    | .ok _ => false
    | .error _ => true
  else if navigateCond instruction then
    match findUrl instruction with
    | some nav_url =>
      match env.navigate nav_url with
      | .ok _ => false
      | .error _ => true
    | none => false
  else false

/-- The instruction loop from index `k` on: each instruction is stripped,
blank ones are skipped (still consuming their index), and the records of
each step are appended in order. -/
def execFrom (env : ToolEnv) (k : Nat) : List String → List StepRecord
  | [] => []
  | ins :: rest =>
    (if trimStr ins = ("" : String) then [] else execStep env k (trimStr ins))
      ++ execFrom env (k + 1) rest

/-- `execute_jira_instructions`: run every instruction in order, collecting
the appended step records. -/
def execute_jira_instructions (env : ToolEnv) (instructions : List String) :
    List StepRecord :=
  execFrom env 0 instructions

/-! ## Action-list assembly for script generation
(`execute_jira`, lines 205-287) -/

/-- The action dicts handed to `generate_playwright_script`; absent dict
keys are `none`. -/
structure ScriptAction where
  type : String := ""
  url : Option String := none
  selector : Option String := none
  value : Option String := none
  name : Option String := none
  timeout : Option Nat := none
  assertion : Option String := none
  deriving DecidableEq, Repr

/-- The per-record mapping of the script-generation loop
(lines 217-250): click/fill/hover/select records that carry the needed
keys become script actions, everything else is dropped. -/
def stepToAction (s : StepRecord) : Option ScriptAction :=
  if s.step = ("playwright_click") ∧ s.selector.isSome then
    some { type := "click", selector := s.selector }
  else if s.step = ("playwright_fill") ∧ s.selector.isSome ∧ s.value.isSome then
    some { type := "fill", selector := s.selector,
           value := some (s.value.getD ("test_value")) }
  else if s.step = ("playwright_hover") ∧ s.selector.isSome then
    some { type := "click", selector := s.selector }
  else if s.step = ("playwright_select") ∧ s.selector.isSome ∧ s.value.isSome then
    some { type := "select", selector := s.selector,
           value := some (s.value.getD ("option1")) }
  else none

/-- The final screenshot action appended at line 252-254. -/
def finalScreenshotAction (jira_key : String) : ScriptAction :=
  { type := "screenshot", name := some (jira_key ++ ("_final")) }

/-- The action-list assembly of `execute_jira` (lines 210-254): script
generation happens only when a primary URL was found (`none` models the
skipped generation of the `else` branch at line 284); with a URL, the list
is a leading navigate, the mapped step records, and a final screenshot. -/
def collectActions (jira_key : String) (url : Option String)
    (steps : List StepRecord) : Option (List ScriptAction) :=
  match url with
  | none => none
  | some u =>
    some (({ type := "navigate", url := some u } : ScriptAction)
      :: (steps.filterMap stepToAction
        ++ [finalScreenshotAction jira_key]))

/-! ## Suite orchestrator
(`unified_test_orchestrator.execute_full_stack_test_suite`, lines 162-256) -/

/-- A per-kind result dict: only the `status` key is inspected by the
aggregation, `message` carries the text of a wrapped exception. -/
structure SuiteResult where
  status : String
  message : Option String := none
  deriving DecidableEq, Repr

/-- A kind runner that raised is turned into an error-status result
(the `isinstance(results[i], Exception)` arms, lines 215-223). -/
def wrapKindOutcome : Except String SuiteResult → SuiteResult
  | .ok r => r
  | .error m => { status := "error", message := some m }

/-- `all_results` (line 237): the populated per-kind results, in
web/api/integration order, restricted to the requested kinds. -/
def requestedResults (run_web run_api run_int : Bool)
    (webO apiO intO : Except String SuiteResult) : List SuiteResult :=
  (if run_web then [wrapKindOutcome webO] else [])
    ++ (if run_api then [wrapKindOutcome apiO] else [])
    ++ (if run_int then [wrapKindOutcome intO] else [])

/-- The overall-status calculation (lines 239-244). -/
def calcOverallStatus (all_results : List SuiteResult) : String :=
  if all_results.all (fun r => r.status == "success") then "success"
  else if all_results.any (fun r => r.status == "error") then "failed"
  else "partial_success"

/-- The `execution_results` dict, restricted to the keys the claims are
about. -/
structure ExecutionResults where
  web_results : Option SuiteResult
  api_results : Option SuiteResult
  integration_results : Option SuiteResult
  overall_status : String
  deriving DecidableEq, Repr

/-- `execute_full_stack_test_suite` on an existing suite directory: each
requested kind's runner outcome (normal result or raised exception) is
recorded in its slot and the overall status derived. -/
def execute_full_stack_test_suite (run_web run_api run_int : Bool)
    (webO apiO intO : Except String SuiteResult) : ExecutionResults :=
  { web_results := if run_web then some (wrapKindOutcome webO) else none,
    api_results := if run_api then some (wrapKindOutcome apiO) else none,
    integration_results :=
      if run_int then some (wrapKindOutcome intO) else none,
    overall_status :=
      calcOverallStatus
        (requestedResults run_web run_api run_int webO apiO intO) }

/-! ## Smoke-test orchestrator
(`unified_test_orchestrator.run_smoke_test_suite`, lines 444-519) -/

/-- One health-check entry as returned by the kind runners. -/
structure HealthCheck where
  label : String
  status : String
  deriving DecidableEq, Repr

/-- A kind runner as a schedulable task: how long it takes to settle and
the check list it returns. -/
structure SimTask where
  duration : Nat
  checks : List HealthCheck
  deriving DecidableEq, Repr

/-- The return dict of `run_smoke_test_suite`: optional fields model key
presence (the timeout dict of lines 512-517 carries none of the normal
keys). -/
structure SmokeReport where
  status : Option String := none
  message : Option String := none
  environment : Option String := none
  api_health_checks : Option (List HealthCheck) := none
  web_smoke_tests : Option (List HealthCheck) := none
  overall_health : Option String := none
  deriving DecidableEq, Repr

/-- The task list gathered at lines 471-477, in api/web order. -/
def smokeTasks (include_apis include_web : Bool) (apiTask webTask : SimTask) :
    List SimTask :=
  (if include_apis then [apiTask] else [])
    ++ (if include_web then [webTask] else [])

/-- Settling time of `asyncio.gather` over concurrently running tasks:
the slowest task's duration. -/
def maxDuration (ts : List SimTask) : Nat :=
  ts.foldl (fun m t => max m t.duration) 0

/-- The overall-health loops of lines 495-507. -/
def allPassed (api_checks web_tests : List HealthCheck) : Bool :=
  api_checks.all (fun c => c.status == "passed")
    && web_tests.all (fun c => c.status == "passed")

/-- `run_smoke_test_suite`: with `parallel_execution` and a non-empty task
list, `asyncio.wait_for` raises `TimeoutError` when the gather has not
settled within `max_execution_time`, producing the bare timeout dict;
otherwise the check lists are filled in. When `parallel_execution` is
false the gathered tasks are never awaited and the initial empty lists
stand. -/
def run_smoke_test_suite (environment : String)
    (include_apis include_web : Bool) (max_execution_time : Nat)
    (parallel : Bool) (apiTask webTask : SimTask) : SmokeReport :=
  let tasks := smokeTasks include_apis include_web apiTask webTask
  if parallel && !tasks.isEmpty then
    if max_execution_time < maxDuration tasks then
      { status := some ("timeout"),
        message := some (("Smoke tests exceeded ")
          ++ toString max_execution_time ++ (" seconds")),
        environment := some environment }
    else
      let api_checks := if include_apis then apiTask.checks else []
      let web_tests := if include_web then webTask.checks else []
      { environment := some environment,
        api_health_checks := some api_checks,
        web_smoke_tests := some web_tests,
        overall_health :=
          some (if allPassed api_checks web_tests then ("healthy")
            else ("unhealthy")) }
  else
    { environment := some environment,
      api_health_checks := some [],
      web_smoke_tests := some [],
      overall_health :=
        some (if allPassed [] [] then ("healthy") else ("unhealthy")) }

/-! ## Script synthesizer
(`browser_navigator_server.generate_playwright_script`, lines 300-574) -/

/-- `"".join(c if c.isalnum() else "_" for c in script_name)` (line 326). -/
def sanitizeName (s : String) : String :=
  String.mk (s.data.map (fun c => if c.isAlphanum then c else '_'))

/-- The default action list substituted when none was provided
(lines 332-336). -/
def defaultActions (url : String) : List ScriptAction :=
  [{ type := "navigate", url := some url },
   { type := "screenshot", name := some ("page_loaded") }]

/-- Everything the generated script's header holds before the embedded
generation date (start of the f-string at line 341). -/
def scriptDatePrefix (n : String) : String :=
  ("\n// ") ++ n ++ (".ts\n// Generated on: ")

/-- The header part following the generation date (rest of the f-string
at line 341). -/
def scriptHeaderAfterDate (n description : String) (headless : Bool) :
    String :=
  ("\n// Description: ") ++ description
    ++ ("\n\nimport \x7b test, expect \x7d from \x27@playwright/test\x27;\n\ntest(\x27")
    ++ n
    ++ ("\x27, async (\x7b page \x7d) => \x7b\n  // Test configuration\n  const headless = ")
    ++ (if headless then ("true") else ("false"))
    ++ (";\n\n  console.log(\x27Starting test: ")
    ++ n ++ ("\x27);\n\n  try \x7b\n")

/-- The statement block emitted for one action (lines 361-441); unknown
action types contribute nothing. -/
def actionChunk (default_url : String) (i : Nat) (a : ScriptAction) :
    String :=
  let t := lowerStr a.type
  if t = ("navigate") then
    let u := a.url.getD default_url
    ("    // Navigate to URL\n    console.log(\x27Navigating to ")
      ++ u ++ ("\x27);\n    await page.goto(\x27") ++ u
      ++ ("\x27, \x7b waitUntil: \x27networkidle\x27 \x7d);\n    console.log(\x27Navigation complete\x27);\n\n")
  else if t = ("click") then
    let sel := a.selector.getD ("")
    ("    // Click element\n    console.log(\x27Clicking on ")
      ++ sel ++ ("\x27);\n    await page.waitForSelector(\x27") ++ sel
      ++ ("\x27, \x7b state: \x27visible\x27 \x7d);\n    await page.click(\x27")
      ++ sel ++ ("\x27);\n\n")
  else if t = ("fill") then
    let sel := a.selector.getD ("")
    let v := a.value.getD ("")
    ("    // Fill form field\n    console.log(\x27Filling ")
      ++ sel ++ (" with value\x27);\n    await page.waitForSelector(\x27")
      ++ sel ++ ("\x27, \x7b state: \x27visible\x27 \x7d);\n    await page.fill(\x27")
      ++ sel ++ ("\x27, \x27") ++ v ++ ("\x27);\n\n")
  else if t = ("screenshot") then
    let nm := a.name.getD (("screenshot_") ++ toString i)
    ("    // Take screenshot\n    console.log(\x27Taking screenshot: ")
      ++ nm ++ ("\x27);\n    await page.screenshot(\x7b path: \x27./screenshots/")
      ++ nm ++ (".png\x27, fullPage: true \x7d);\n\n")
  else if t = ("select") then
    let sel := a.selector.getD ("")
    let v := a.value.getD ("")
    ("    // Select dropdown option\n    console.log(\x27Selecting ")
      ++ v ++ (" from ") ++ sel
      ++ ("\x27);\n    await page.selectOption(\x27") ++ sel
      ++ ("\x27, \x27") ++ v ++ ("\x27);\n\n")
  else if t = ("wait") then
    let ms := a.timeout.getD 1000
    ("    // Wait for specified timeout\n    console.log(\x27Waiting for ")
      ++ toString ms ++ ("ms\x27);\n    await page.waitForTimeout(")
      ++ toString ms ++ (");\n\n")
  else if t = ("expect") then
    let sel := a.selector.getD ("")
    let asrt := a.assertion.getD ("toBeVisible")
    ("    // Assert element state\n    console.log(\x27Expecting ")
      ++ sel ++ (" to ") ++ asrt
      ++ ("\x27);\n    await expect(page.locator(\x27") ++ sel
      ++ ("\x27)).") ++ asrt ++ ("();\n\n")
  else ("")

/-- The enumerated action loop (line 361). -/
def actionsCodeFrom (default_url : String) (i : Nat) :
    List ScriptAction → String
  | [] => ("")
  | a :: rest => actionChunk default_url i a
      ++ actionsCodeFrom default_url (i + 1) rest

/-- The closing block of the generated script (lines 443-459). -/
def scriptClosing (n : String) : String :=
  ("  \x7d catch (error) \x7b\n    console.error(\x60Test failed: $\x7berror\x7d\x60);\n    // Take screenshot on failure\n    await page.screenshot(\x7b\n      path: \x27./screenshots/")
    ++ n
    ++ ("_failure.png\x27,\n      fullPage: true\n    \x7d);\n    throw error;\n  \x7d\n  \n  console.log(\x27Test completed successfully: ")
    ++ n ++ ("\x27);\n\x7d);\n")

/-- The full `typescript_code` written to the script file: header (with
the embedded generation date), per-action statements, closing block. -/
def generate_playwright_script_body (script_name url : String)
    (actions : List ScriptAction) (description : String) (headless : Bool)
    (current_date : String) : String :=
  let n := sanitizeName script_name
  let acts := if actions.isEmpty then defaultActions url else actions
  scriptDatePrefix n ++ current_date
    ++ scriptHeaderAfterDate n description headless
    ++ actionsCodeFrom url 0 acts ++ scriptClosing n

/-- Everything of the script body after the embedded generation date. -/
def scriptDateSuffix (script_name url : String) (actions : List ScriptAction)
    (description : String) (headless : Bool) : String :=
  scriptHeaderAfterDate (sanitizeName script_name) description headless
    ++ actionsCodeFrom url 0
      (if actions.isEmpty then defaultActions url else actions)
    ++ scriptClosing (sanitizeName script_name)

/-- The static `playwright.config.ts` boilerplate (lines 464-487). -/
def playwrightConfigCode : String :=
  ("\nimport \x7b defineConfig, devices \x7d from \x27@playwright/test\x27;\n\nexport default defineConfig(\x7b\n  testDir: \x27./\x27,\n  timeout: 30000,\n  expect: \x7b\n    timeout: 5000\n  \x7d,\n  reporter: \x27html\x27,\n  use: \x7b\n    baseURL: \x27http://localhost:3000\x27,\n    trace: \x27on-first-retry\x27,\n    screenshot: \x27only-on-failure\x27,\n  \x7d,\n  projects: [\n    \x7b\n      name: \x27chromium\x27,\n      use: \x7b ...devices[\x27Desktop Chrome\x27] \x7d,\n    \x7d,\n  ],\n  outputDir: \x27test-results/\x27,\n\x7d);\n")

/-- The static `README.md` boilerplate (lines 494-538). -/
def readmeContent : String :=
  ("# Generated Playwright Test Scripts\n\nThis directory contains automatically generated Playwright test scripts.\n\n## Running Tests\n\nTo run the tests:\n\n1. Make sure you have Playwright installed:\n   \x60\x60\x60\n   npm install -g @playwright/test\n   \x60\x60\x60\n\n2. Install browsers:\n   \x60\x60\x60\n   npx playwright install\n   \x60\x60\x60\n\n3. Run a specific test:\n   \x60\x60\x60\n   npx playwright test script-name.ts\n   \x60\x60\x60\n\n4. Run all tests:\n   \x60\x60\x60\n   npx playwright test\n   \x60\x60\x60\n\n## Generating Package Files\n\nIf you don\x27t have a \x60package.json\x60 file yet, create one with:\n\n\x60\x60\x60\nnpm init -y\nnpm install -D @playwright/test\n\x60\x60\x60\n\n## Test Structure\n\nEach test follows a similar pattern:\n- Navigate to the target URL\n- Perform a series of actions (clicks, form filling, etc.)\n- Take screenshots at key points\n- Include assertions to verify the expected state\n")

/-- The static `package.json` boilerplate (lines 549-566). -/
def packageJsonContent : String :=
  ("\x7b\n  \"name\": \"generated-playwright-tests\",\n  \"version\": \"1.0.0\",\n  \"description\": \"Auto-generated Playwright tests\",\n  \"main\": \"index.js\",\n  \"scripts\": \x7b\n    \"test\": \"playwright test\"\n  \x7d,\n  \"keywords\": [\n    \"playwright\",\n    \"testing\",\n    \"automation\"\n  ],\n  \"devDependencies\": \x7b\n    \"@playwright/test\": \"^1.40.0\"\n  \x7d\n\x7d\n")

/-- The output directory as a map from file name to contents. -/
abbrev FS : Type := String → Option String

/-- Writing one file into the directory. -/
def writeFile (fs : FS) (nm content : String) : FS :=
  fun k => if k = nm then some content else fs k

/-- The `if not path.exists(): write` pattern used for the three
boilerplate files. -/
def createIfAbsent (fs : FS) (nm content : String) : FS :=
  if (fs nm).isNone then writeFile fs nm content else fs

/-- The file effects of one `generate_playwright_script` call, in source
order: the runner config and the README are created only when absent
(lines 461-540), the script file is always written (line 543), and the
dependency manifest is created only when absent (lines 546-568). -/
def generate_playwright_script_fs (fs : FS) (script_name url : String)
    (actions : List ScriptAction) (description : String) (headless : Bool)
    (current_date : String) : FS :=
  let scriptFile := sanitizeName script_name ++ (".spec.ts")
  let fs1 := createIfAbsent fs ("playwright.config.ts") playwrightConfigCode
  let fs2 := createIfAbsent fs1 ("README.md") readmeContent
  let fs3 := writeFile fs2 scriptFile
    (generate_playwright_script_body script_name url actions description
      headless current_date)
  createIfAbsent fs3 ("package.json") packageJsonContent

/-- The arguments of one synthesis call. -/
structure SynthCall where
  script_name : String
  url : String
  actions : List ScriptAction
  description : String
  headless : Bool
  current_date : String

/-- One synthesis call applied to the directory state. -/
def applySynthCall (fs : FS) (c : SynthCall) : FS :=
  generate_playwright_script_fs fs c.script_name c.url c.actions
    c.description c.headless c.current_date

/-- A sequence of synthesis calls into the same output directory. -/
def runSynthCalls (fs : FS) (calls : List SynthCall) : FS :=
  calls.foldl applySynthCall fs

/-! ## Helper lemmas about the overall-status calculation -/

theorem calcOverallStatus_success_iff (rs : List SuiteResult) :
    calcOverallStatus rs = ("success") ↔
      rs.all (fun r => r.status == ("success")) = true := by
  unfold calcOverallStatus
  by_cases h : rs.all (fun r => r.status == ("success")) = true
  · simp [h]
  · simp only [if_neg h]
    by_cases h2 : rs.any (fun r => r.status == ("error")) = true
    · simp only [if_pos h2]
      exact ⟨fun hc => absurd hc (by decide), fun hc => absurd hc h⟩
    · simp only [if_neg h2]
      exact ⟨fun hc => absurd hc (by decide), fun hc => absurd hc h⟩

theorem calcOverallStatus_failed_of_error (rs : List SuiteResult)
    (h2 : rs.any (fun r => r.status == ("error")) = true) :
    calcOverallStatus rs = ("failed") := by
  have h1 : rs.all (fun r => r.status == ("success")) = false := by
    obtain ⟨r, hr, hre⟩ := List.any_eq_true.mp h2
    by_contra hall
    have hall' : rs.all (fun r => r.status == ("success")) = true := by
      revert hall; cases rs.all (fun r => r.status == ("success")) <;> simp
    have hsucc := List.all_eq_true.mp hall' r hr
    have e1 : r.status = ("success") := by simpa using hsucc
    have e2 : r.status = ("error") := by simpa using hre
    rw [e1] at e2
    exact absurd e2 (by decide)
  unfold calcOverallStatus
  simp [h1, h2]

theorem calcOverallStatus_partial (rs : List SuiteResult)
    (h1 : rs.all (fun r => r.status == ("success")) = false)
    (h2 : rs.any (fun r => r.status == ("error")) = false) :
    calcOverallStatus rs = ("partial_success") := by
  unfold calcOverallStatus
  simp [h1, h2]

/-! ## Claims about the suite orchestrator -/

/-- C10: when `execute_full_stack_test_suite` is invoked with all three
kind flags false, the populated result set is empty and the derived
overall status is the vacuous `"success"`, whatever the (unused) runner
outcomes would have been. -/
theorem empty_suite_overall_success
    (webO apiO intO : Except String SuiteResult) :
    (execute_full_stack_test_suite false false false webO apiO intO).overall_status
        = ("success")
      ∧ requestedResults false false false webO apiO intO = [] :=
  ⟨rfl, rfl⟩

/-- C1, counterexample: with a single requested kind reporting status
`"error"`, the computed overall status is the literal `"failed"`, not the
`"failure"` stated by the claim. -/
theorem overall_failed_literal_counterexample :
    (execute_full_stack_test_suite true false false
        (.ok { status := "error" }) (.ok { status := "success" })
        (.ok { status := "success" })).overall_status = ("failed")
      ∧ (("failed") : String) ≠ ("failure") :=
  ⟨rfl, by decide⟩

/-- C1, amended: overall status is `"success"` iff every requested kind
reports `"success"`; it is `"failed"` (the code's literal, not
`"failure"`) whenever at least one requested kind reports `"error"`,
regardless of the others; in every other case it is
`"partial_success"`. -/
theorem aggregation_three_way (run_web run_api run_int : Bool)
    (webO apiO intO : Except String SuiteResult) :
    ((execute_full_stack_test_suite run_web run_api run_int webO apiO
          intO).overall_status = ("success") ↔
        (requestedResults run_web run_api run_int webO apiO intO).all
          (fun r => r.status == ("success")) = true)
      ∧ ((requestedResults run_web run_api run_int webO apiO intO).any
            (fun r => r.status == ("error")) = true →
          (execute_full_stack_test_suite run_web run_api run_int webO apiO
            intO).overall_status = ("failed"))
      ∧ ((requestedResults run_web run_api run_int webO apiO intO).all
            (fun r => r.status == ("success")) = false →
          (requestedResults run_web run_api run_int webO apiO intO).any
            (fun r => r.status == ("error")) = false →
          (execute_full_stack_test_suite run_web run_api run_int webO apiO
            intO).overall_status = ("partial_success")) :=
  ⟨calcOverallStatus_success_iff _,
   fun h => calcOverallStatus_failed_of_error _ h,
   fun h1 h2 => calcOverallStatus_partial _ h1 h2⟩

/-- Witness for `aggregation_three_way`: web succeeded, api errored,
integration not requested: the overall status is `"failed"`. -/
theorem aggregation_three_way_witness :
    (execute_full_stack_test_suite true true false
        (.ok { status := "success" }) (.ok { status := "error" })
        (.ok { status := "success" })).overall_status = ("failed") :=
  (aggregation_three_way true true false
      (.ok { status := "success" }) (.ok { status := "error" })
      (.ok { status := "success" })).2.1 (by decide)

/-! ## Claims about the instruction classifier -/

/-- C2, counterexample: the dispatch chain tests `click` before
`navigate to`, so a step carrying both a navigation phrase with an
embedded URL and the word `click` classifies as `click`, and the
screenshot rule only fires on `take a/the screenshot`, so a step
containing both `screenshot` and `click` classifies as `click` too. -/
theorem classifier_precedence_counterexample :
    classify ("Navigate to https://example.com and click submit") = .click
      ∧ classify ("Navigate to https://example.com and click submit") ≠ .navigate
      ∧ findUrl ("Navigate to https://example.com and click submit")
          = some ("https://example.com")
      ∧ classify ("Capture a screenshot and click submit") = .click
      ∧ classify ("Capture a screenshot and click submit") ≠ .screenshot := by
  refine ⟨rfl, by decide, rfl, rfl, by decide⟩

/-- C2, amended: classification is the ordered, first-match-wins rule
table (1) `take a screenshot`/`take the screenshot`, (2) `click`,
(3) `check for`, (4) `navigate to`, else unknown; in particular a step
containing both `take a screenshot` and `click` is a screenshot, and a
step containing `navigate to` with an embedded URL together with `click`
is a click. -/
theorem classifier_first_match_table :
    (∀ s, classify s = firstMatch classifierRules .unknown s)
      ∧ classify ("Take a screenshot and click submit") = .screenshot
      ∧ classify ("Navigate to https://example.com then click submit") = .click :=
  ⟨fun _ => rfl, rfl, rfl⟩

/-! ## Claims about the ticket parser -/

theorem guarded_some_ne_empty {x s : String}
    (h : (if x = ("") then none else some x) = some s) : s ≠ ("") := by
  by_cases hx : x = ("")
  · rw [if_pos hx] at h; cases h
  · rw [if_neg hx] at h
    injection h with h'
    subst h'
    exact hx

/-- C5, counterexample: a line with a doubled heading marker has only one
marker stripped, so the parsed step still begins with `#`. -/
theorem parse_retains_hash_counterexample :
    parseSteps ("## Title") = [("# Title")]
      ∧ startsWithStr ("# Title") ("#") = true :=
  ⟨rfl, rfl⟩

/-- C5, amended: every parsed step is a non-empty string (empty lines and
lines that normalise to empty are dropped); a single leading `#`/`# `
marker is stripped per line — a step can still begin with `#` when the
source line carried repeated markers — and a full-line
`Navigate to [URL]` pattern has its brackets stripped with the URL
retained. -/
theorem parse_steps_nonempty :
    (∀ T s, s ∈ parseSteps T → s ≠ (""))
      ∧ parseSteps ("Navigate to [https://example.com/login]")
          = [("Navigate to https://example.com/login")]
      ∧ parseSteps ("# Heading\n\nClick go") = [("Heading"), ("Click go")] := by
  refine ⟨?_, rfl, rfl⟩
  intro T s hs
  obtain ⟨a, _, ha⟩ := List.mem_filterMap.mp hs
  simp only [cleanLine] at ha
  by_cases h0 : trimStr a = ("")
  · rw [if_pos h0] at ha
    cases ha
  · rw [if_neg h0] at ha
    exact guarded_some_ne_empty ha

/-- Witness for `parse_steps_nonempty`, instantiated at the double-marker
ticket text. -/
theorem parse_steps_nonempty_witness :
    ("# Title") ∈ parseSteps ("## Title") ∧ ("# Title") ≠ ("") :=
  ⟨by decide, parse_steps_nonempty.1 ("## Title") ("# Title") (by decide)⟩

/-! ## Claims about the execution engine -/

/-- An environment where every tool call succeeds and selector inference
always yields a concrete selector. -/
def envOK : ToolEnv :=
  { screenshot := fun _ => .ok (),
    selectorFor := fun _ => .ok (some ("#loginBtn")),
    click := fun _ => .ok (),
    navigate := fun _ => .ok () }

/-- C6, counterexample: an instruction matching none of the dispatch rules
appends no record at all — there is no `outcome=skipped` entry. -/
theorem unknown_instruction_unrecorded_counterexample :
    execute_jira_instructions envOK [("Open the settings page")] = []
      ∧ classify ("Open the settings page") = .unknown :=
  ⟨rfl, rfl⟩

/-- C6, amended: a step classified `unknown` contributes nothing to the
step records: the `if/elif` chain has no `else` arm, so unmatched
instructions are silently skipped rather than recorded as skipped. -/
theorem unknown_steps_append_nothing (env : ToolEnv) (i : Nat) (ins : String)
    (h : classify ins = .unknown) : execStep env i ins = [] := by
  unfold classify at h
  unfold execStep
  by_cases h1 : screenshotCond ins = true
  · rw [if_pos h1] at h; exact absurd h (by decide)
  · rw [if_neg h1] at h ⊢
    by_cases h2 : clickCond ins = true
    · rw [if_pos h2] at h; exact absurd h (by decide)
    · rw [if_neg h2] at h ⊢
      by_cases h3 : checkForCond ins = true
      · rw [if_pos h3] at h; exact absurd h (by decide)
      · rw [if_neg h3] at h ⊢
        by_cases h4 : navigateCond ins = true
        · rw [if_pos h4] at h; exact absurd h (by decide)
        · rw [if_neg h4]

/-- Witness for `unknown_steps_append_nothing`. -/
theorem unknown_steps_append_nothing_witness :
    classify ("Wait for approval") = .unknown
      ∧ execStep envOK 3 ("Wait for approval") = [] :=
  ⟨rfl, unknown_steps_append_nothing envOK 3 ("Wait for approval") rfl⟩

/-! ## Claims about the final screenshot -/

/-- C7, counterexample: when the ticket exposes no primary URL, script
generation is skipped entirely — no action list exists, hence no final
screenshot record is appended. -/
theorem no_url_no_final_screenshot_counterexample :
    collectActions ("TEST-1") none [] = none
      ∧ ¬∃ acts, collectActions ("TEST-1") none [] = some acts := by
  refine ⟨rfl, ?_⟩
  rintro ⟨acts, h⟩
  simp [collectActions] at h

/-- C7, amended: whenever a primary URL was found, the assembled action
list always ends with the final screenshot action, regardless of the step
outcomes; without a URL no action list is assembled at all. -/
theorem final_screenshot_requires_url (jira_key : String)
    (steps : List StepRecord) :
    collectActions jira_key none steps = none
      ∧ ∀ u, ∃ acts, collectActions jira_key (some u) steps = some acts
          ∧ acts.getLast? = some (finalScreenshotAction jira_key)
          ∧ acts ≠ [] := by
  refine ⟨rfl, fun u => ⟨_, rfl, ?_, by simp⟩⟩
  show (({ type := "navigate", url := some u } : ScriptAction)
      :: (steps.filterMap stepToAction
        ++ [finalScreenshotAction jira_key])).getLast? = _
  rw [← List.cons_append, List.getLast?_concat]

/-! ## Claims about the script synthesizer -/

/-- C8: the script body is a pure function of the trace and metadata:
for any two generation dates the bodies share the same date-independent
prefix and suffix, so they are byte-identical once the embedded
generation date is ignored. -/
theorem script_body_date_independent (script_name url : String)
    (actions : List ScriptAction) (description : String) (headless : Bool)
    (d1 d2 : String) :
    generate_playwright_script_body script_name url actions description
        headless d1
      = scriptDatePrefix (sanitizeName script_name) ++ d1
        ++ scriptDateSuffix script_name url actions description headless
    ∧ generate_playwright_script_body script_name url actions description
        headless d2
      = scriptDatePrefix (sanitizeName script_name) ++ d2
        ++ scriptDateSuffix script_name url actions description headless := by
  constructor <;>
    simp [generate_playwright_script_body, scriptDateSuffix,
      String.append_assoc]

/-! ## Claims about the smoke-test orchestrator timeout -/

/-- C4, counterexample: with both kinds requested and every runner slower
than the 5-second limit, the returned report is the bare timeout dict:
its status is `"timeout"` and it carries no per-kind entries at all — in
particular no kind is marked `error` with reason `"timeout"`. -/
theorem smoke_timeout_counterexample :
    run_smoke_test_suite ("staging") true true 5 true
        { duration := 10, checks := [{ label := "auth-api", status := "passed" }] }
        { duration := 10, checks := [{ label := "homepage_loads", status := "passed" }] }
      = { status := some ("timeout"),
          message := some ("Smoke tests exceeded 5 seconds"),
          environment := some ("staging") }
      ∧ (run_smoke_test_suite ("staging") true true 5 true
          { duration := 10, checks := [{ label := "auth-api", status := "passed" }] }
          { duration := 10, checks := [{ label := "homepage_loads", status := "passed" }] }).api_health_checks = none
      ∧ (run_smoke_test_suite ("staging") true true 5 true
          { duration := 10, checks := [{ label := "auth-api", status := "passed" }] }
          { duration := 10, checks := [{ label := "homepage_loads", status := "passed" }] }).web_smoke_tests = none :=
  ⟨rfl, rfl, rfl⟩

/-- C4, amended: whenever the parallel smoke run times out (some gathered
runner outlives the limit), the orchestrator returns a single report with
status `"timeout"`, the exceeded-limit message and the environment, and
with no per-kind results whatsoever — completed results are not reported
and no kind is marked `error "timeout"`. -/
theorem smoke_timeout_bare_report (environment : String)
    (include_apis include_web : Bool) (max_execution_time : Nat)
    (apiTask webTask : SimTask)
    (hreq : smokeTasks include_apis include_web apiTask webTask ≠ [])
    (hslow : max_execution_time
      < maxDuration (smokeTasks include_apis include_web apiTask webTask)) :
    run_smoke_test_suite environment include_apis include_web
        max_execution_time true apiTask webTask
      = { status := some ("timeout"),
          message := some (("Smoke tests exceeded ")
            ++ toString max_execution_time ++ (" seconds")),
          environment := some environment } := by
  have hne : (smokeTasks include_apis include_web apiTask webTask).isEmpty
      = false := by
    match h : smokeTasks include_apis include_web apiTask webTask with
    | [] => exact absurd h hreq
    | x :: xs => rfl
  simp [run_smoke_test_suite, hne, hslow]

/-- Witness for `smoke_timeout_bare_report`: api-only run, a 7-second
runner against a 3-second limit. -/
theorem smoke_timeout_bare_report_witness :
    run_smoke_test_suite ("staging") true false 3 true
        { duration := 7, checks := [] } { duration := 0, checks := [] }
      = { status := some ("timeout"),
          message := some ("Smoke tests exceeded 3 seconds"),
          environment := some ("staging") } :=
  smoke_timeout_bare_report ("staging") true false 3
    { duration := 7, checks := [] } { duration := 0, checks := [] }
    (by decide) (by decide)

/-! ## Claim about step-failure isolation -/

theorem execFrom_append (env : ToolEnv) (pre post : List String) :
    ∀ k, execFrom env k (pre ++ post)
      = execFrom env k pre ++ execFrom env (k + pre.length) post := by
  induction pre with
  | nil => intro k; simp [execFrom]
  | cons x xs ih =>
    intro k
    have hk : k + 1 + xs.length = k + (xs.length + 1) := by omega
    simp only [List.cons_append, execFrom, List.length_cons, List.append_eq]
    rw [ih (k + 1), List.append_assoc, hk]

theorem status_of_singleton {rec : StepRecord}
    (hstat : rec.status = ("failed") ∨ rec.status = ("error")) :
    ∃ r, ([rec] : List StepRecord) = [r]
      ∧ (r.status = ("failed") ∨ r.status = ("error")) :=
  ⟨rec, rfl, hstat⟩

theorem execStep_fail_single (env : ToolEnv) (i : Nat) (ins : String)
    (h : stepDispatchFails env i ins = true) :
    ∃ rec, execStep env i ins = [rec]
      ∧ (rec.status = ("failed") ∨ rec.status = ("error")) := by
  unfold stepDispatchFails at h
  simp only [execStep]
  by_cases h1 : screenshotCond ins = true
  · rw [if_pos h1] at h ⊢
    cases hs : env.screenshot (("step_") ++ toString (i + 1)
        ++ ("_screenshot")) with
    | ok u => rw [hs] at h; exact Bool.noConfusion h
    | error e => exact status_of_singleton (Or.inr rfl)
  · rw [if_neg h1] at h ⊢
    by_cases h2 : clickCond ins = true
    · rw [if_pos h2] at h ⊢
      cases hct : extract_click_target ins with
      | none => rw [hct] at h; exact Bool.noConfusion h
      | some tgt =>
        rw [hct] at h
        dsimp only [] at h ⊢
        by_cases ht : tgt = ("")
        · rw [if_pos ht] at h; exact Bool.noConfusion h
        · rw [if_neg ht] at h ⊢
          cases hsel : env.selectorFor (("find the ") ++ tgt) with
          | error e => exact status_of_singleton (Or.inr rfl)
          | ok st =>
            rw [hsel] at h
            dsimp only [] at h ⊢
            cases st with
            | none => exact status_of_singleton (Or.inl rfl)
            | some sel =>
              dsimp only [] at h ⊢
              by_cases hv : (!(sel == ("" : String))
                  && !(startsWithStr sel ("Error"))) = true
              · rw [if_pos hv] at h ⊢
                cases hc : env.click sel with
                | ok u => rw [hc] at h; exact Bool.noConfusion h
                | error e => exact status_of_singleton (Or.inr rfl)
              · rw [if_neg hv]; exact status_of_singleton (Or.inl rfl)
    · rw [if_neg h2] at h ⊢
      by_cases h3 : checkForCond ins = true
      · rw [if_pos h3] at h ⊢
        cases hs : env.screenshot (("verification_step_")
            ++ toString (i + 1)) with
        | ok u => rw [hs] at h; exact Bool.noConfusion h
        | error e => exact status_of_singleton (Or.inr rfl)
      · rw [if_neg h3] at h ⊢
        by_cases h4 : navigateCond ins = true
        · rw [if_pos h4] at h ⊢
          cases hu : findUrl ins with
          | none => rw [hu] at h; exact Bool.noConfusion h
          | some nav_url =>
            rw [hu] at h
            dsimp only [] at h ⊢
            cases hn : env.navigate nav_url with
            | ok u => rw [hn] at h; exact Bool.noConfusion h
            | error e => exact status_of_singleton (Or.inr rfl)
        · rw [if_neg h4] at h; exact Bool.noConfusion h

/-- C3: step failures are isolated. The run over `pre ++ ins :: post`
splits into the records of `pre`, the records of `ins`, and the records
of `post` — the steps after `ins` execute and produce the same records
whatever `ins` does (failures never propagate); and when the dispatch for
`ins` fails (selector inference raises or yields an error-shaped selector,
or the dispatched tool call raises), the step is recorded with a
`failed`/`error` status. -/
theorem step_failures_never_abort (env : ToolEnv) (k : Nat)
    (pre : List String) (ins : String) (post : List String) :
    execFrom env k (pre ++ ins :: post)
      = execFrom env k pre
        ++ ((if trimStr ins = ("") then []
            else execStep env (k + pre.length) (trimStr ins))
          ++ execFrom env (k + pre.length + 1) post)
      ∧ (stepDispatchFails env (k + pre.length) (trimStr ins) = true →
          ∃ rec, execStep env (k + pre.length) (trimStr ins) = [rec]
            ∧ (rec.status = ("failed") ∨ rec.status = ("error"))) := by
  constructor
  · rw [execFrom_append env pre (ins :: post) k]
    rfl
  · exact fun h => execStep_fail_single env _ _ h

/-- An environment whose selector inference returns an error-shaped
selector string. -/
def envSelFail : ToolEnv :=
  { screenshot := fun _ => .ok (),
    selectorFor := fun _ => .ok (some ("Error: element not found")),
    click := fun _ => .ok (),
    navigate := fun _ => .ok () }

/-- Witness for `step_failures_never_abort`: the middle click step's
selector inference is error-shaped, it is recorded as `failed`, and the
surrounding steps still execute. -/
theorem step_failures_never_abort_witness :
    execFrom envSelFail 0
        ([("Take a screenshot"), ("Click sign in"),
          ("Check for welcome message")])
      = execFrom envSelFail 0 [("Take a screenshot")]
        ++ ((if trimStr ("Click sign in") = ("") then []
            else execStep envSelFail 1 (trimStr ("Click sign in")))
          ++ execFrom envSelFail 2 [("Check for welcome message")])
      ∧ ∃ rec, execStep envSelFail 1 (trimStr ("Click sign in")) = [rec]
          ∧ (rec.status = ("failed") ∨ rec.status = ("error")) := by
  have h := step_failures_never_abort envSelFail 0 [("Take a screenshot")]
    ("Click sign in") [("Check for welcome message")]
  exact ⟨h.1, h.2 (by decide)⟩

/-! ## Claim about the synthesizer's side outputs -/

theorem writeFile_same (fs : FS) (nm c : String) :
    writeFile fs nm c nm = some c := by
  show (if nm = nm then some c else fs nm) = some c
  rw [if_pos rfl]

theorem writeFile_other (fs : FS) (nm c k : String) (h : k ≠ nm) :
    writeFile fs nm c k = fs k := by
  show (if k = nm then some c else fs k) = fs k
  rw [if_neg h]

theorem createIfAbsent_other (fs : FS) (nm c k : String) (h : k ≠ nm) :
    createIfAbsent fs nm c k = fs k := by
  unfold createIfAbsent
  by_cases hc : (fs nm).isNone = true
  · rw [if_pos hc]; exact writeFile_other fs nm c k h
  · rw [if_neg hc]

theorem createIfAbsent_absent (fs : FS) (nm c : String) (h : fs nm = none) :
    createIfAbsent fs nm c nm = some c := by
  unfold createIfAbsent
  rw [h, if_pos (show ((none : Option String).isNone = true) from rfl)]
  exact writeFile_same fs nm c

theorem createIfAbsent_present (fs : FS) (nm c v : String)
    (h : fs nm = some v) : createIfAbsent fs nm c nm = some v := by
  unfold createIfAbsent
  rw [h, if_neg (by simp)]
  exact h

/-- A sanitized script file name (`….spec.ts`) is never the runner
config's name. -/
theorem append_spec_ts_ne_config (s : String) :
    s ++ (".spec.ts") ≠ ("playwright.config.ts") := by
  intro h
  have hd : s.data ++ (".spec.ts").data = ("playwright.config.ts").data := by
    rw [← String.data_append, h]
  have hlen : s.data.length + 8 = 20 := by
    have h' := congrArg List.length hd
    have e1 : ((".spec.ts") : String).data.length = 8 := rfl
    have e2 : (("playwright.config.ts") : String).data.length = 20 := rfl
    rw [List.length_append, e1, e2] at h'
    exact h'
  have h12 : s.data.length = 12 := by omega
  have hdrop := congrArg (List.drop s.data.length) hd
  rw [List.drop_left, h12] at hdrop
  exact absurd hdrop (by decide)

/-- A sanitized script file name (`….spec.ts`) is never the dependency
manifest's name. -/
theorem append_spec_ts_ne_package (s : String) :
    s ++ (".spec.ts") ≠ ("package.json") := by
  intro h
  have hd : s.data ++ (".spec.ts").data = ("package.json").data := by
    rw [← String.data_append, h]
  have hlen : s.data.length + 8 = 12 := by
    have h' := congrArg List.length hd
    have e1 : ((".spec.ts") : String).data.length = 8 := rfl
    have e2 : (("package.json") : String).data.length = 12 := rfl
    rw [List.length_append, e1, e2] at h'
    exact h'
  have h4 : s.data.length = 4 := by omega
  have hdrop := congrArg (List.drop s.data.length) hd
  rw [List.drop_left, h4] at hdrop
  exact absurd hdrop (by decide)

/-- The non-boilerplate writes of one call (README creation and the
script write) never touch a key distinct from their targets. -/
theorem synthStack_at_other (fs : FS) (sf body k : String)
    (h1 : k ≠ sf) (h2 : k ≠ ("README.md"))
    (h3 : k ≠ ("playwright.config.ts")) :
    writeFile (createIfAbsent (createIfAbsent fs ("playwright.config.ts")
        playwrightConfigCode) ("README.md") readmeContent) sf body k
      = fs k := by
  rw [writeFile_other _ _ _ _ h1, createIfAbsent_other _ _ _ _ h2,
    createIfAbsent_other _ _ _ _ h3]

theorem synth_call_config_pres (c : SynthCall) (fs : FS) (v : String)
    (hv : fs ("playwright.config.ts") = some v) :
    applySynthCall fs c ("playwright.config.ts") = some v := by
  simp only [applySynthCall, generate_playwright_script_fs]
  rw [createIfAbsent_other _ ("package.json") packageJsonContent
    ("playwright.config.ts") (by decide)]
  rw [writeFile_other _ _ _ _
    (Ne.symm (append_spec_ts_ne_config (sanitizeName c.script_name)))]
  rw [createIfAbsent_other _ ("README.md") readmeContent
    ("playwright.config.ts") (by decide)]
  exact createIfAbsent_present fs _ _ v hv

theorem synth_call_config_abs (c : SynthCall) (fs : FS)
    (h : fs ("playwright.config.ts") = none) :
    applySynthCall fs c ("playwright.config.ts")
      = some playwrightConfigCode := by
  simp only [applySynthCall, generate_playwright_script_fs]
  rw [createIfAbsent_other _ ("package.json") packageJsonContent
    ("playwright.config.ts") (by decide)]
  rw [writeFile_other _ _ _ _
    (Ne.symm (append_spec_ts_ne_config (sanitizeName c.script_name)))]
  rw [createIfAbsent_other _ ("README.md") readmeContent
    ("playwright.config.ts") (by decide)]
  exact createIfAbsent_absent fs _ _ h

theorem synth_call_package_pres (c : SynthCall) (fs : FS) (w : String)
    (hw : fs ("package.json") = some w) :
    applySynthCall fs c ("package.json") = some w := by
  simp only [applySynthCall, generate_playwright_script_fs]
  have h3 := synthStack_at_other fs
    (sanitizeName c.script_name ++ (".spec.ts"))
    (generate_playwright_script_body c.script_name c.url c.actions
      c.description c.headless c.current_date)
    ("package.json")
    (Ne.symm (append_spec_ts_ne_package (sanitizeName c.script_name)))
    (by decide) (by decide)
  rw [hw] at h3
  exact createIfAbsent_present _ _ _ w h3

theorem synth_call_package_abs (c : SynthCall) (fs : FS)
    (h : fs ("package.json") = none) :
    applySynthCall fs c ("package.json") = some packageJsonContent := by
  simp only [applySynthCall, generate_playwright_script_fs]
  have h3 := synthStack_at_other fs
    (sanitizeName c.script_name ++ (".spec.ts"))
    (generate_playwright_script_body c.script_name c.url c.actions
      c.description c.headless c.current_date)
    ("package.json")
    (Ne.symm (append_spec_ts_ne_package (sanitizeName c.script_name)))
    (by decide) (by decide)
  rw [h] at h3
  exact createIfAbsent_absent _ _ _ h3

/-- C9: across any sequence of synthesis calls into the same output
directory, a pre-existing runner config (`playwright.config.ts`) and a
pre-existing dependency manifest (`package.json`) are never overwritten;
when absent, each is created by the first call with the static
boilerplate, so exactly one of each exists afterwards. -/
theorem boilerplate_never_overwritten (fs : FS) (calls : List SynthCall) :
    (∀ v, fs ("playwright.config.ts") = some v →
        runSynthCalls fs calls ("playwright.config.ts") = some v)
      ∧ (∀ w, fs ("package.json") = some w →
          runSynthCalls fs calls ("package.json") = some w)
      ∧ (fs ("playwright.config.ts") = none → calls ≠ [] →
          runSynthCalls fs calls ("playwright.config.ts")
            = some playwrightConfigCode)
      ∧ (fs ("package.json") = none → calls ≠ [] →
          runSynthCalls fs calls ("package.json")
            = some packageJsonContent) := by
  induction calls generalizing fs with
  | nil =>
    exact ⟨fun v hv => hv, fun w hw => hw,
      fun _ hne => absurd rfl hne, fun _ hne => absurd rfl hne⟩
  | cons c rest ih =>
    refine ⟨?_, ?_, ?_, ?_⟩
    · intro v hv
      exact (ih (applySynthCall fs c)).1 v (synth_call_config_pres c fs v hv)
    · intro w hw
      exact (ih (applySynthCall fs c)).2.1 w
        (synth_call_package_pres c fs w hw)
    · intro hnone _
      exact (ih (applySynthCall fs c)).1 playwrightConfigCode
        (synth_call_config_abs c fs hnone)
    · intro hnone _
      exact (ih (applySynthCall fs c)).2.1 packageJsonContent
        (synth_call_package_abs c fs hnone)

/-- A directory that already holds a config and a manifest. -/
def fsWithBoiler : FS := fun k =>
  if k = ("playwright.config.ts") then some ("existing config")
  else if k = ("package.json") then some ("existing manifest")
  else none

/-- An empty output directory. -/
def fsEmptyDir : FS := fun _ => none

/-- A concrete synthesis call. -/
def sampleCall : SynthCall :=
  { script_name := "demo test", url := "https://example.com",
    actions := [], description := "demo", headless := false,
    current_date := "2026-10-12" }

/-- Witness for `boilerplate_never_overwritten`: two calls leave
pre-existing boilerplate untouched, and one call into an empty directory
creates it. -/
theorem boilerplate_never_overwritten_witness :
    runSynthCalls fsWithBoiler [sampleCall, sampleCall]
        ("playwright.config.ts") = some ("existing config")
      ∧ runSynthCalls fsWithBoiler [sampleCall, sampleCall]
          ("package.json") = some ("existing manifest")
      ∧ runSynthCalls fsEmptyDir [sampleCall] ("playwright.config.ts")
          = some playwrightConfigCode
      ∧ runSynthCalls fsEmptyDir [sampleCall] ("package.json")
          = some packageJsonContent :=
  ⟨(boilerplate_never_overwritten fsWithBoiler [sampleCall, sampleCall]).1
      _ rfl,
   (boilerplate_never_overwritten fsWithBoiler [sampleCall, sampleCall]).2.1
      _ rfl,
   (boilerplate_never_overwritten fsEmptyDir [sampleCall]).2.2.1 rfl
      (by simp),
   (boilerplate_never_overwritten fsEmptyDir [sampleCall]).2.2.2 rfl
      (by simp)⟩

end McpOrchestrator
